import Mathlib

/-!
Verification of the content-pipeline agent.

Shallow embedding of the repository's pipeline core:
* `trend_graph/state.py` — the `RawPost` / `ScoredPost` / `GeneratedPost` /
  `PostResult` / `TrendState` data model,
* `trend_graph/nodes/score.py` — the `ViralityScorer`,
* `trend_graph/nodes/generate.py` and `trend_graph/nodes/post.py` — the
  generation and publishing stages,
* `trend_graph/graph.py` — the conditional workflow and its terminal handling,
* `backend/scheduler.py` — the job registry and its single-instance guard.

Python floats are modelled by `ℚ`; timestamps (`datetime.utcnow()` reads) are
explicit `now : ℚ` parameters; `None` is `Option.none`; database calls, which
never influence the control flow or state observed by the claims, are omitted.
-/

/-- `PostStatus` enum from `state.py`. -/
inductive PostStatus where
  | raw
  | scored
  | generated
  | posted
  | metricsCollected
  | failed
deriving DecidableEq, Repr

/-- `RawPost` dataclass from `state.py` (the `scraped_at` bookkeeping field is
irrelevant to every claim and omitted). `upvotes` / `num_comments` are Python
ints, `created_utc` / `upvote_ratio` Python floats. -/
structure RawPost where
  reddit_id : String
  title : String
  url : String
  upvotes : Int
  created_utc : ℚ
  subreddit : String
  permalink : String
  num_comments : Int
  upvote_ratio : ℚ
deriving DecidableEq, Repr

/-- `RawPost.age_minutes` property: `(datetime.utcnow().timestamp() - created_utc) / 60.0`.
The wall-clock read is the explicit `now` argument. -/
def RawPost.age_minutes (p : RawPost) (now : ℚ) : ℚ :=
  (now - p.created_utc) / 60

/-- `ScoredPost` dataclass from `state.py` (`scored_at` omitted as above). -/
structure ScoredPost where
  raw_post : RawPost
  score : ℚ
  meets_threshold : Bool
deriving DecidableEq, Repr

/-- `GeneratedPost` dataclass from `state.py` (`generated_at` omitted). -/
structure GeneratedPost where
  scored_post : ScoredPost
  tweet_text : String
deriving DecidableEq, Repr

/-- `PostResult` dataclass from `state.py`. -/
structure PostResult where
  generated_post : GeneratedPost
  tweet_url : Option String := none
  tweet_id : Option String := none
  posted_at : Option ℚ := none
  likes : Option Int := none
  retweets : Option Int := none
  metrics_collected_at : Option ℚ := none
  status : PostStatus := PostStatus.generated
  error_message : Option String := none
deriving DecidableEq, Repr

/-- `PostResult.mark_posted`. -/
def PostResult.mark_posted (r : PostResult) (tweet_url tweet_id : String) (now : ℚ) : PostResult :=
  { r with tweet_url := some tweet_url, tweet_id := some tweet_id,
           posted_at := some now, status := PostStatus.posted }

/-- `PostResult.mark_failed`. -/
def PostResult.mark_failed (r : PostResult) (error_message : String) : PostResult :=
  { r with error_message := some error_message, status := PostStatus.failed }

/-- `TrendState` dataclass from `state.py`.  The three final fields are ghost
instrumentation for the verification: `completed_at_writes` counts assignments
to `completed_at`, and `gen_invocations` / `pub_invocations` count calls the
generation and publishing stages issue to their external collaborators. -/
structure TrendState where
  raw_posts : List RawPost := []
  scored_posts : List ScoredPost := []
  generated_posts : List GeneratedPost := []
  results : List PostResult := []
  workflow_id : String := ""
  started_at : Option ℚ := none
  completed_at : Option ℚ := none
  current_step : String := ""
  error_message : Option String := none
  min_score : ℚ := 200
  subreddits : List String := ["interestingasfuck", "technology", "pics"]
  total_scraped : ℕ := 0
  total_scored : ℕ := 0
  total_generated : ℕ := 0
  total_posted : ℕ := 0
  total_failed : ℕ := 0
  completed_at_writes : ℕ := 0
  gen_invocations : ℕ := 0
  pub_invocations : ℕ := 0
deriving DecidableEq, Repr

/-- `TrendState.start_workflow`. -/
def TrendState.start_workflow (s : TrendState) (workflow_id : String) (now : ℚ) : TrendState :=
  { s with workflow_id := workflow_id, started_at := some now,
           current_step := "starting", error_message := none }

/-- `TrendState.complete_workflow` (one assignment to `completed_at`). -/
def TrendState.complete_workflow (s : TrendState) (now : ℚ) : TrendState :=
  { s with completed_at := some now, current_step := "completed",
           completed_at_writes := s.completed_at_writes + 1 }

/-- `TrendState.fail_workflow` (one assignment to `completed_at`). -/
def TrendState.fail_workflow (s : TrendState) (error_message : String) (now : ℚ) : TrendState :=
  { s with error_message := some error_message, current_step := "failed",
           completed_at := some now,
           completed_at_writes := s.completed_at_writes + 1 }

/-- `TrendState.update_step`. -/
def TrendState.update_step (s : TrendState) (step_name : String) : TrendState :=
  { s with current_step := step_name }

/-- `TrendState.add_raw_posts`. -/
def TrendState.add_raw_posts (s : TrendState) (posts : List RawPost) : TrendState :=
  { s with raw_posts := s.raw_posts ++ posts,
           total_scraped := s.total_scraped + posts.length }

/-- `TrendState.add_scored_posts`. -/
def TrendState.add_scored_posts (s : TrendState) (posts : List ScoredPost) : TrendState :=
  { s with scored_posts := s.scored_posts ++ posts,
           total_scored := s.total_scored + posts.length }

/-- `TrendState.add_generated_posts`. -/
def TrendState.add_generated_posts (s : TrendState) (posts : List GeneratedPost) : TrendState :=
  { s with generated_posts := s.generated_posts ++ posts,
           total_generated := s.total_generated + posts.length }

/-- `TrendState.add_results`: appends and bumps `total_posted` per `POSTED`
result and `total_failed` per `FAILED` result. -/
def TrendState.add_results (s : TrendState) (results : List PostResult) : TrendState :=
  { s with results := s.results ++ results,
           total_posted :=
             s.total_posted + (results.filter (fun r => r.status = PostStatus.posted)).length,
           total_failed :=
             s.total_failed + (results.filter (fun r => r.status = PostStatus.failed)).length }

/-- `TrendState.get_posts_above_threshold`. -/
def TrendState.get_posts_above_threshold (s : TrendState) : List ScoredPost :=
  s.scored_posts.filter (fun p => p.meets_threshold)

/-! ## `ViralityScorer` (`trend_graph/nodes/score.py`) -/

namespace ViralityScorer

/-- The `subreddit_multipliers` lookup table in `_apply_scoring_factors`
(`dict.get` with default `1.0`). -/
def subreddit_multipliers (subreddit : String) : ℚ :=
  if subreddit = "interestingasfuck" then 1
  else if subreddit = "technology" then 11/10
  else if subreddit = "pics" then 9/10
  else if subreddit = "programming" then 12/10
  else if subreddit = "MachineLearning" then 13/10
  else if subreddit = "artificial" then 12/10
  else 1

/-- The age penalty `max(0.5, 1 - (age_hours - 12) / 24)` computed in
`_apply_scoring_factors` when `age_hours > 12`. -/
def age_penalty (age_hours : ℚ) : ℚ :=
  max (1/2) (1 - (age_hours - 12) / 24)

/-- `ViralityScorer._apply_scoring_factors`.  Factor 1 boosts by 1.1 when
`upvotes > 0` and `num_comments / upvotes > 0.1`; factor 2 multiplies by 1.05
when `upvote_ratio > 0.9` and by 0.95 when `< 0.7`; factor 3 is the subreddit
multiplier; factor 4 multiplies by `age_penalty` when the (unclamped) age
exceeds 12 hours. -/
def apply_scoring_factors (post : RawPost) (now : ℚ) (base_score : ℚ) : ℚ :=
  let score := base_score
  let score :=
    if 0 < post.upvotes ∧ (post.num_comments : ℚ) / (post.upvotes : ℚ) > 1/10 then
      score * (11/10)
    else score
  let score :=
    if post.upvote_ratio > 9/10 then score * (21/20)
    else if post.upvote_ratio < 7/10 then score * (19/20)
    else score
  let score := score * subreddit_multipliers post.subreddit
  let age_hours := post.age_minutes now / 60
  let score := if age_hours > 12 then score * age_penalty age_hours else score
  score

/-- `ViralityScorer.calculate_virality_score`: clamps `age_minutes` to at
least 1, takes `upvotes / age_minutes` as the base score and applies the
scoring factors. -/
def calculate_virality_score (post : RawPost) (now : ℚ) : ℚ :=
  let age_minutes := post.age_minutes now
  let age_minutes := if age_minutes < 1 then 1 else age_minutes
  let base_score := (post.upvotes : ℚ) / age_minutes
  apply_scoring_factors post now base_score

/-- `ViralityScorer.score_post` (threshold check `score >= min_score`). -/
def score_post (min_score : ℚ) (post : RawPost) (now : ℚ) : ScoredPost :=
  { raw_post := post,
    score := calculate_virality_score post now,
    meets_threshold := decide (calculate_virality_score post now ≥ min_score) }

/-- `ViralityScorer.score_posts`: scores every post, then sorts by score with
`reverse=True` (highest first, stable). -/
def score_posts (min_score : ℚ) (posts : List RawPost) (now : ℚ) : List ScoredPost :=
  (posts.map (fun p => score_post min_score p now)).mergeSort
    (fun a b => decide (b.score ≤ a.score))

end ViralityScorer

/-! ## Collaborator environment

The external collaborators (Reddit source, OpenAI generation, Twitter
publishing) and the per-node exception dispositions are inputs of one run,
bundled as an `Env`.  A `none` from `gen_results` / `pub_results` is a failed
collaborator call (exception or empty response); the `*_fails` flags model an
exception escaping a node's per-item isolation and hitting the node's outer
`except` handler. -/
structure Env where
  now : ℚ
  min_score : ℚ
  scraped : List RawPost
  scrape_fails : Bool
  score_fails : Bool
  gen_results : ScoredPost → Option String
  gen_node_fails : Bool
  pub_results : GeneratedPost → Option String
  pub_node_fails : Bool
  client_initialized : Bool

/-! ## Generation stage (`trend_graph/nodes/generate.py`) -/

namespace ContentGenerator

/-- `ContentGenerator.generate_tweet`: the collaborator call yields
`env.gen_results post` (`none` on exception); a reply longer than 280
characters is truncated to its first 277 characters plus `"..."`. -/
def generate_tweet (env : Env) (post : ScoredPost) : Option String :=
  match env.gen_results post with
  | none => none
  | some tweet_text =>
      some (if 280 < tweet_text.length then tweet_text.take 277 ++ "..." else tweet_text)

/-- `ContentGenerator.generate_tweets_batch`: gathers `generate_tweet` over
the posts (asyncio.gather preserves input order) and keeps a `GeneratedPost`
exactly for the truthy (non-`None`, non-empty) results. -/
def generate_tweets_batch (env : Env) (posts : List ScoredPost) : List GeneratedPost :=
  posts.filterMap fun post =>
    match generate_tweet env post with
    | some tweet_text =>
        if tweet_text = "" then none
        else some { scored_post := post, tweet_text := tweet_text }
    | none => none

end ContentGenerator

/-! ## Publishing stage (`trend_graph/nodes/post.py`) -/

namespace TwitterPoster

/-- `TwitterPoster.post_tweet`: fails if the client is uninitialized or the
tweet exceeds 280 characters; otherwise the collaborator call returns a tweet
id (success) or fails.  On success the result is marked posted with the
constructed status URL. -/
def post_tweet (env : Env) (generated_post : GeneratedPost) : PostResult :=
  let result : PostResult := { generated_post := generated_post }
  if ¬ env.client_initialized then
    result.mark_failed "Twitter client not initialized"
  else if 280 < generated_post.tweet_text.length then
    result.mark_failed "Tweet too long"
  else
    match env.pub_results generated_post with
    | some tweet_id =>
        result.mark_posted ("https://twitter.com/user/status/" ++ tweet_id) tweet_id env.now
    | none => result.mark_failed "Twitter API error"

/-- `TwitterPoster.post_tweets_batch`: a sequential loop over the generated
posts, appending each `post_tweet` result (the inter-tweet sleep does not
affect the results). -/
def post_tweets_batch (env : Env) (generated_posts : List GeneratedPost) : List PostResult :=
  generated_posts.map (post_tweet env)

end TwitterPoster

/-! ## Workflow nodes (the four LangGraph node functions) -/

/-- `scrape_sources_node`: sets the step, scrapes all subreddits (the
accumulated collaborator output is `env.scraped`) and adds them to the state;
an escaping exception fails the workflow. -/
def scrape_sources_node (env : Env) (state : TrendState) : TrendState :=
  let state := state.update_step "scraping"
  if env.scrape_fails then
    state.fail_workflow "Error in scrape sources node" env.now
  else
    state.add_raw_posts env.scraped

/-- `score_virality_node`: sets the step, returns unchanged when there is
nothing to score, otherwise scores and records all raw posts; an escaping
exception fails the workflow. -/
def score_virality_node (env : Env) (state : TrendState) : TrendState :=
  let state := state.update_step "scoring"
  if env.score_fails then
    state.fail_workflow "Error in score virality node" env.now
  else if state.raw_posts = [] then state
  else
    state.add_scored_posts
      (ViralityScorer.score_posts env.min_score state.raw_posts env.now)

/-- `generate_content_node`: sets the step, generates content for the posts
above threshold (one collaborator invocation per such post, counted in the
ghost field) and records the successes; an escaping exception fails the
workflow. -/
def generate_content_node (env : Env) (state : TrendState) : TrendState :=
  let state := state.update_step "generating"
  if env.gen_node_fails then
    state.fail_workflow "Error in generate content node" env.now
  else
    let posts_to_generate := state.get_posts_above_threshold
    if posts_to_generate = [] then state
    else
      let generated_posts := ContentGenerator.generate_tweets_batch env posts_to_generate
      let state := { state with gen_invocations := state.gen_invocations + posts_to_generate.length }
      state.add_generated_posts generated_posts

/-- `post_content_node`: sets the step, publishes every generated post in
order (one `post_tweet` call per post, counted in the ghost field) and records
the results; an escaping exception fails the workflow. -/
def post_content_node (env : Env) (state : TrendState) : TrendState :=
  let state := state.update_step "posting"
  if env.pub_node_fails then
    state.fail_workflow "Error in post content node" env.now
  else if state.generated_posts = [] then state
  else
    let results := TwitterPoster.post_tweets_batch env state.generated_posts
    let state := { state with pub_invocations := state.pub_invocations + state.generated_posts.length }
    state.add_results results

/-! ## Workflow graph (`trend_graph/graph.py`) -/

/-- LangGraph's terminal sentinel. -/
def WorkflowEnd : String := "__end__"

/-- `should_continue_to_scoring`: ends on a recorded error or when nothing was
scraped. -/
def should_continue_to_scoring (state : TrendState) : String :=
  if state.error_message ≠ none then WorkflowEnd
  else if state.raw_posts = [] then WorkflowEnd
  else "score_virality"

/-- `should_continue_to_generation`: ends on a recorded error or when no post
meets the threshold. -/
def should_continue_to_generation (state : TrendState) : String :=
  if state.error_message ≠ none then WorkflowEnd
  else if state.get_posts_above_threshold = [] then WorkflowEnd
  else "generate_content"

/-- `should_continue_to_posting`: ends on a recorded error or when nothing was
generated. -/
def should_continue_to_posting (state : TrendState) : String :=
  if state.error_message ≠ none then WorkflowEnd
  else if state.generated_posts = [] then WorkflowEnd
  else "post_content"

/-- The compiled graph: `scrape_sources` entry point, the three conditional
edges, `post_content → END`. -/
def run_pipeline (env : Env) (state : TrendState) : TrendState :=
  let s1 := scrape_sources_node env state
  if should_continue_to_scoring s1 = "score_virality" then
    let s2 := score_virality_node env s1
    if should_continue_to_generation s2 = "generate_content" then
      let s3 := generate_content_node env s2
      if should_continue_to_posting s3 = "post_content" then
        post_content_node env s3
      else s3
    else s2
  else s1

/-- The terminal handling at the end of `TrendWorkflow.run_workflow`: a final
state carrying an error is failed (a second `fail_workflow` on the state the
failing node already failed), otherwise it is completed. -/
def finish_workflow (final_state : TrendState) (now : ℚ) : TrendState :=
  match final_state.error_message with
  | some error_message => final_state.fail_workflow error_message now
  | none => final_state.complete_workflow now

/-- `TrendWorkflow.run_workflow`: initializes the state, invokes the graph and
applies the terminal handling.  (The database mirror calls are omitted; the
run-level `except` path, reachable only through the omitted database calls, is
not modelled.) -/
def run_workflow (env : Env) (workflow_id : String) : TrendState :=
  let state : TrendState := {}
  let state := state.start_workflow workflow_id env.now
  let state := { state with min_score := env.min_score }
  let final_state := run_pipeline env state
  finish_workflow final_state env.now

/-! ## Scheduler (`backend/scheduler.py`)

The four jobs are registered with `max_instances=1` and `coalesce=True`.
The execution semantics of the scheduling library (APScheduler) are not part
of this repository's sources, so the executor is modelled from the spec: a
trigger firing for a job with as many instances in flight as `max_instances`
is dropped or deferred and starts no new instance, otherwise it starts one.
`run_job_now` only moves the job's `next_run_time` (`job.modify`), so a
manual run-now surfaces as an ordinary `fire` event of the same job id. -/

/-- A scheduler job descriptor: id, `max_instances`, `coalesce`,
`misfire_grace_time` (seconds). -/
structure JobDescriptor where
  id : String
  max_instances : ℕ
  coalesce : Bool
  misfire_grace_time : Option ℕ
deriving DecidableEq, Repr

/-- The workflow job added by `SchedulerManager._add_jobs`. -/
def workflow_job : JobDescriptor :=
  { id := "workflow_job", max_instances := 1, coalesce := true,
    misfire_grace_time := some 300 }

/-- The metrics-collection job added by `SchedulerManager._add_jobs`. -/
def metrics_job : JobDescriptor :=
  { id := "metrics_job", max_instances := 1, coalesce := true,
    misfire_grace_time := some 600 }

/-- The snapshot job added by `SchedulerManager._add_jobs`. -/
def snapshot_job : JobDescriptor :=
  { id := "snapshot_job", max_instances := 1, coalesce := true,
    misfire_grace_time := none }

/-- The cleanup job added by `SchedulerManager._add_jobs`. -/
def cleanup_job : JobDescriptor :=
  { id := "cleanup_job", max_instances := 1, coalesce := true,
    misfire_grace_time := none }

/-- The registry built by `SchedulerManager._add_jobs`. -/
def scheduled_jobs : List JobDescriptor :=
  [workflow_job, metrics_job, snapshot_job, cleanup_job]

/-- Scheduler events: a trigger firing for a job id (interval tick, coalesced
late firing, or manual run-now via `job.modify(next_run_time=now)`), or a
running instance finishing. -/
inductive SchedEvent where
  | fire (job_id : String)
  | finish (job_id : String)
deriving DecidableEq, Repr

/-- Modelled from the spec: one step of the scheduling library's executor over
the in-flight instance counts.  A firing for a registered job starts an
instance only when fewer than `max_instances` are in flight; otherwise it is
coalesced/dropped and the counts are unchanged.  A finish retires one
instance. -/
def sched_step (jobs : List JobDescriptor) (running : String → ℕ) :
    SchedEvent → (String → ℕ)
  | SchedEvent.fire job_id =>
      match jobs.find? (fun j => j.id = job_id) with
      | some j =>
          if running job_id < j.max_instances then
            fun x => if x = job_id then running job_id + 1 else running x
          else running
      | none => running
  | SchedEvent.finish job_id =>
      fun x => if x = job_id then running x - 1 else running x

/-- In-flight instance counts after a sequence of scheduler events, starting
from the idle scheduler. -/
def sched_run (jobs : List JobDescriptor) (events : List SchedEvent) : String → ℕ :=
  events.foldl (sched_step jobs) (fun _ => 0)

/-! ## Specification-side scoring formula (for the refinement claim C7) -/

/-- The scoring algorithm as §4.1 of the spec words it: base score
`popularity ÷ max(age_in_minutes, 1)`, multiplied by the engagement bonus,
the quality adjustment, the source-group multiplier and the age-decay factor
(each factor `1` when its condition does not hold). -/
def spec_scoring_formula (post : RawPost) (now : ℚ) : ℚ :=
  let base := (post.upvotes : ℚ) / max (post.age_minutes now) 1
  let engagement :=
    if (post.num_comments : ℚ) / (post.upvotes : ℚ) > 1/10 then (11/10 : ℚ) else 1
  let quality :=
    if post.upvote_ratio > 9/10 then (21/20 : ℚ)
    else if post.upvote_ratio < 7/10 then (19/20 : ℚ) else 1
  let group := ViralityScorer.subreddit_multipliers post.subreddit
  let decay :=
    if post.age_minutes now / 60 > 12 then
      max (1/2 : ℚ) (1 - (post.age_minutes now / 60 - 12) / 24)
    else 1
  base * engagement * quality * group * decay

/-- The post of end-to-end scenario 1: popularity 1000, age 60 minutes,
100 comments, approval ratio 0.95, group multiplier 1.2 (the `programming`
group). -/
def scenario1_post : RawPost :=
  { reddit_id := "scenario1", title := "t", url := "u", upvotes := 1000,
    created_utc := 0, subreddit := "programming", permalink := "p",
    num_comments := 100, upvote_ratio := 19/20 }

/-- A post whose score is read off at two different wall-clock instants. -/
def clock_probe_post : RawPost :=
  { reddit_id := "probe", title := "t", url := "u", upvotes := 60,
    created_utc := 0, subreddit := "none", permalink := "p",
    num_comments := 0, upvote_ratio := 4/5 }

namespace ViralityScorer

lemma subreddit_multipliers_pos (s : String) : 0 < subreddit_multipliers s := by
  unfold subreddit_multipliers
  split_ifs <;> norm_num

lemma age_penalty_half_le (a : ℚ) : 1/2 ≤ age_penalty a := le_max_left _ _

lemma clamp_eq_max (a : ℚ) : (if a < 1 then 1 else a) = max a 1 := by
  split_ifs with h
  · exact (max_eq_right h.le).symm
  · exact (max_eq_left (not_lt.mp h)).symm

lemma apply_scoring_factors_nonneg (post : RawPost) (now base : ℚ) (hb : 0 ≤ base) :
    0 ≤ apply_scoring_factors post now base := by
  have hm : (0:ℚ) ≤ subreddit_multipliers post.subreddit :=
    (subreddit_multipliers_pos _).le
  have hp : (0:ℚ) ≤ age_penalty (post.age_minutes now / 60) :=
    le_trans (by norm_num) (age_penalty_half_le _)
  unfold apply_scoring_factors
  dsimp only
  split_ifs <;> positivity

end ViralityScorer

namespace ViralityScorer

lemma subreddit_multipliers_programming :
    subreddit_multipliers "programming" = 12/10 := by
  unfold subreddit_multipliers
  rw [if_neg (by decide), if_neg (by decide), if_neg (by decide), if_pos rfl]

lemma subreddit_multipliers_none : subreddit_multipliers "none" = 1 := by
  unfold subreddit_multipliers
  rw [if_neg (by decide), if_neg (by decide), if_neg (by decide), if_neg (by decide),
    if_neg (by decide), if_neg (by decide)]

lemma apply_scoring_factors_zero (post : RawPost) (now : ℚ) :
    apply_scoring_factors post now 0 = 0 := by
  unfold apply_scoring_factors
  dsimp only
  split_ifs <;> ring

lemma scenario1_score : calculate_virality_score scenario1_post 3600 = 21 := by
  norm_num [calculate_virality_score, apply_scoring_factors, age_penalty,
    RawPost.age_minutes, scenario1_post, subreddit_multipliers_programming]

lemma clock_probe_score_at_60min : calculate_virality_score clock_probe_post 3600 = 1 := by
  norm_num [calculate_virality_score, apply_scoring_factors, age_penalty,
    RawPost.age_minutes, clock_probe_post, subreddit_multipliers_none]

lemma clock_probe_score_at_120min :
    calculate_virality_score clock_probe_post 7200 = 1/2 := by
  norm_num [calculate_virality_score, apply_scoring_factors, age_penalty,
    RawPost.age_minutes, clock_probe_post, subreddit_multipliers_none]

end ViralityScorer

/-- A post and a field-for-field twin that differs only in the fields the
scorer never reads (`reddit_id`, `title`, `url`, `permalink`). -/
def c2_twin_a : RawPost :=
  { reddit_id := "a", title := "first", url := "ua", upvotes := 300,
    created_utc := 600, subreddit := "technology", permalink := "pa",
    num_comments := 90, upvote_ratio := 24/25 }

/-- See `c2_twin_a`. -/
def c2_twin_b : RawPost :=
  { reddit_id := "b", title := "second", url := "ub", upvotes := 300,
    created_utc := 600, subreddit := "technology", permalink := "pb",
    num_comments := 90, upvote_ratio := 24/25 }

/-- **C2** (amended): the score is a pure function of the call instant and the
post's scoring-relevant fields — two calls that read the same wall-clock
`now` and agree on `upvotes`, `created_utc`, `subreddit`, `num_comments` and
`upvote_ratio` return the identical score.  (As stated, the claim is false:
`age_minutes` reads `datetime.utcnow()`, so the result does depend on when
the call is made — see the counterexample.) -/
theorem C2_score_function_of_fields_and_clock (now : ℚ) (p q : RawPost)
    (h1 : p.upvotes = q.upvotes) (h2 : p.created_utc = q.created_utc)
    (h3 : p.subreddit = q.subreddit) (h4 : p.num_comments = q.num_comments)
    (h5 : p.upvote_ratio = q.upvote_ratio) :
    ViralityScorer.calculate_virality_score p now =
      ViralityScorer.calculate_virality_score q now := by
  simp only [ViralityScorer.calculate_virality_score,
    ViralityScorer.apply_scoring_factors, RawPost.age_minutes, h1, h2, h3, h4, h5]

/-- Witness for C2: the twins differ in `title`/`url`/`permalink`/`reddit_id`
yet score identically at the same instant. -/
theorem C2_score_function_of_fields_and_clock_witness :
    c2_twin_a.upvotes = c2_twin_b.upvotes ∧
    c2_twin_a.created_utc = c2_twin_b.created_utc ∧
    c2_twin_a.subreddit = c2_twin_b.subreddit ∧
    c2_twin_a.num_comments = c2_twin_b.num_comments ∧
    c2_twin_a.upvote_ratio = c2_twin_b.upvote_ratio ∧
    ViralityScorer.calculate_virality_score c2_twin_a 4200 =
      ViralityScorer.calculate_virality_score c2_twin_b 4200 :=
  ⟨rfl, rfl, rfl, rfl, rfl,
    C2_score_function_of_fields_and_clock 4200 c2_twin_a c2_twin_b rfl rfl rfl rfl rfl⟩

/-- Counterexample for C2 as stated: the same post, with every field equal
(including the creation timestamp), scores 1 when the call happens 60 minutes
after creation and 1/2 when it happens 120 minutes after creation — the
result depends on when the call is made. -/
theorem C2_counterexample_clock_dependence :
    ViralityScorer.calculate_virality_score clock_probe_post 3600 ≠
      ViralityScorer.calculate_virality_score clock_probe_post 7200 := by
  rw [ViralityScorer.clock_probe_score_at_60min,
    ViralityScorer.clock_probe_score_at_120min]
  norm_num

/-- **C7** (amended): for every post with positive popularity the returned
score is exactly the base score `popularity ÷ max(age_minutes, 1)` times the
engagement bonus, quality adjustment, source-group multiplier and age-decay
factor, in this order; and the scenario-1 post (popularity 1000, age 60
minutes, 100 comments, approval ratio 0.95, group multiplier 1.2) scores
exactly 21 — not ≈23.1, because its comment ratio is exactly 0.1 and the
engagement bonus requires a ratio strictly above 0.1. -/
theorem C7_scoring_formula :
    (∀ (post : RawPost) (now : ℚ), 0 < post.upvotes →
      ViralityScorer.calculate_virality_score post now = spec_scoring_formula post now) ∧
    ViralityScorer.calculate_virality_score scenario1_post 3600 = 21 := by
  constructor
  · intro post now hpos
    unfold ViralityScorer.calculate_virality_score ViralityScorer.apply_scoring_factors
      spec_scoring_formula
    dsimp only
    rw [ViralityScorer.clamp_eq_max]
    simp only [hpos, true_and, ViralityScorer.age_penalty]
    split_ifs <;> ring
  · exact ViralityScorer.scenario1_score

/-- Witness for C7 at the scenario-1 post. -/
theorem C7_scoring_formula_witness :
    0 < scenario1_post.upvotes ∧
    ViralityScorer.calculate_virality_score scenario1_post 3600 =
      spec_scoring_formula scenario1_post 3600 :=
  ⟨by decide, C7_scoring_formula.1 scenario1_post 3600 (by decide)⟩

/-- Counterexample for C7's concrete scenario as stated: the scenario-1 post
scores exactly 21, not `(1000/60) × 1.10 × 1.05 × 1.2 = 23.1` — with 100
comments on 1000 upvotes the engagement ratio is exactly 0.1, which does not
exceed the strict `> 0.1` threshold, so the ×1.10 bonus does not apply. -/
theorem C7_counterexample_scenario_value :
    ViralityScorer.calculate_virality_score scenario1_post 3600 = 21 ∧
    ViralityScorer.calculate_virality_score scenario1_post 3600 ≠ 231/10 := by
  refine ⟨ViralityScorer.scenario1_score, ?_⟩
  rw [ViralityScorer.scenario1_score]
  norm_num

/-- **C8**: for every age beyond 12 hours the scorer's age-decay factor equals
`max(0.5, 1 − (age_hours − 12)/24)`, is monotonically non-increasing in the
age, never falls below 0.5, and is exactly 0.5 from 36 hours on. -/
theorem C8_age_decay_properties (a b : ℚ) (_h12 : 12 < a) (hab : a ≤ b) :
    ViralityScorer.age_penalty a = max (1/2) (1 - (a - 12) / 24) ∧
    ViralityScorer.age_penalty b ≤ ViralityScorer.age_penalty a ∧
    1/2 ≤ ViralityScorer.age_penalty a ∧
    (36 ≤ a → ViralityScorer.age_penalty a = 1/2) := by
  refine ⟨rfl, ?_, ViralityScorer.age_penalty_half_le a, ?_⟩
  · unfold ViralityScorer.age_penalty
    exact max_le_max le_rfl (by linarith)
  · intro h36
    unfold ViralityScorer.age_penalty
    apply max_eq_left
    linarith

/-- Witness for C8 at ages 24 h and 48 h. -/
theorem C8_age_decay_properties_witness :
    (12 : ℚ) < 24 ∧ (24 : ℚ) ≤ 48 ∧
    (ViralityScorer.age_penalty 24 = max (1/2) (1 - ((24 : ℚ) - 12) / 24) ∧
     ViralityScorer.age_penalty 48 ≤ ViralityScorer.age_penalty 24 ∧
     1/2 ≤ ViralityScorer.age_penalty 24 ∧
     (36 ≤ (24 : ℚ) → ViralityScorer.age_penalty 24 = 1/2)) :=
  ⟨by norm_num, by norm_num,
    C8_age_decay_properties 24 48 (by norm_num) (by norm_num)⟩

/-- **C9**: a post with popularity 0 scores exactly 0 whatever its age, and a
post with non-negative popularity never scores negative (in the exact
rational model there is no NaN or infinity to produce). -/
theorem C9_zero_popularity_and_nonneg (post : RawPost) (now : ℚ) :
    (post.upvotes = 0 → ViralityScorer.calculate_virality_score post now = 0) ∧
    (0 ≤ post.upvotes → 0 ≤ ViralityScorer.calculate_virality_score post now) := by
  constructor
  · intro h0
    unfold ViralityScorer.calculate_virality_score
    dsimp only
    rw [h0]
    simp only [Int.cast_zero, zero_div]
    exact ViralityScorer.apply_scoring_factors_zero post now
  · intro hn
    unfold ViralityScorer.calculate_virality_score
    dsimp only
    apply ViralityScorer.apply_scoring_factors_nonneg
    apply div_nonneg
    · exact_mod_cast hn
    · split_ifs with h
      · norm_num
      · linarith [not_lt.mp h]

/-- Witness for C9 at a zero-popularity post 30 hours old. -/
theorem C9_zero_popularity_and_nonneg_witness :
    ({ clock_probe_post with upvotes := 0 } : RawPost).upvotes = 0 ∧
    ViralityScorer.calculate_virality_score { clock_probe_post with upvotes := 0 } 108000 = 0 :=
  ⟨rfl, (C9_zero_popularity_and_nonneg { clock_probe_post with upvotes := 0 } 108000).1 rfl⟩

/-- **C10**: `score_posts` returns the scored posts sorted in non-increasing
order of score (highest first), and those results are exactly (a permutation
of) the scored input posts — nothing is lost or invented by the sort. -/
theorem C10_score_posts_sorted_desc (min_score now : ℚ) (posts : List RawPost) :
    List.Sorted (fun a b : ScoredPost => b.score ≤ a.score)
      (ViralityScorer.score_posts min_score posts now) ∧
    List.Perm (ViralityScorer.score_posts min_score posts now)
      (posts.map (fun p => ViralityScorer.score_post min_score p now)) := by
  constructor
  · have h := @List.sorted_mergeSort ScoredPost
      (fun a b : ScoredPost => decide (b.score ≤ a.score))
      (fun a b c hab hbc => by
        simp only [decide_eq_true_eq] at *
        exact le_trans hbc hab)
      (fun a b => by simpa using le_total b.score a.score)
      (posts.map (fun p => ViralityScorer.score_post min_score p now))
    unfold ViralityScorer.score_posts
    refine List.Pairwise.imp ?_ h
    intro a b hab
    simpa using hab
  · exact List.mergeSort_perm _ _

/-! ## Workflow lemmas: nodes without an escaping exception neither record an
error nor touch `completed_at` -/

lemma scrape_sources_node_preserves (env : Env) (s : TrendState)
    (h : env.scrape_fails = false) :
    (scrape_sources_node env s).error_message = s.error_message ∧
    (scrape_sources_node env s).completed_at_writes = s.completed_at_writes := by
  simp [scrape_sources_node, h, TrendState.update_step, TrendState.add_raw_posts]

lemma score_virality_node_preserves (env : Env) (s : TrendState)
    (h : env.score_fails = false) :
    (score_virality_node env s).error_message = s.error_message ∧
    (score_virality_node env s).completed_at_writes = s.completed_at_writes := by
  simp only [score_virality_node, h, Bool.false_eq_true, if_false]
  split_ifs <;>
    simp [TrendState.update_step, TrendState.add_scored_posts]

lemma generate_content_node_preserves (env : Env) (s : TrendState)
    (h : env.gen_node_fails = false) :
    (generate_content_node env s).error_message = s.error_message ∧
    (generate_content_node env s).completed_at_writes = s.completed_at_writes := by
  simp only [generate_content_node, h, Bool.false_eq_true, if_false]
  split_ifs <;>
    simp [TrendState.update_step, TrendState.add_generated_posts]

lemma post_content_node_preserves (env : Env) (s : TrendState)
    (h : env.pub_node_fails = false) :
    (post_content_node env s).error_message = s.error_message ∧
    (post_content_node env s).completed_at_writes = s.completed_at_writes := by
  simp only [post_content_node, h, Bool.false_eq_true, if_false]
  split_ifs <;>
    simp [TrendState.update_step, TrendState.add_results]

lemma run_pipeline_preserves (env : Env) (s : TrendState)
    (h1 : env.scrape_fails = false) (h2 : env.score_fails = false)
    (h3 : env.gen_node_fails = false) (h4 : env.pub_node_fails = false) :
    (run_pipeline env s).error_message = s.error_message ∧
    (run_pipeline env s).completed_at_writes = s.completed_at_writes := by
  obtain ⟨e1, w1⟩ := scrape_sources_node_preserves env s h1
  obtain ⟨e2, w2⟩ := score_virality_node_preserves env (scrape_sources_node env s) h2
  obtain ⟨e3, w3⟩ := generate_content_node_preserves env
    (score_virality_node env (scrape_sources_node env s)) h3
  obtain ⟨e4, w4⟩ := post_content_node_preserves env
    (generate_content_node env (score_virality_node env (scrape_sources_node env s))) h4
  unfold run_pipeline
  dsimp only
  split_ifs <;> constructor <;> simp [e1, e2, e3, e4, w1, w2, w3, w4]

lemma finish_workflow_of_none (f : TrendState) (now : ℚ) (h : f.error_message = none) :
    finish_workflow f now = f.complete_workflow now := by
  unfold finish_workflow
  rw [h]

lemma finish_workflow_of_some (f : TrendState) (m : String) (now : ℚ)
    (h : f.error_message = some m) :
    finish_workflow f now = f.fail_workflow m now := by
  unfold finish_workflow
  rw [h]

/-- A run environment in which every node runs cleanly and collection comes
back empty. -/
def clean_empty_env : Env :=
  { now := 5, min_score := 200, scraped := [], scrape_fails := false,
    score_fails := false, gen_results := fun _ => none, gen_node_fails := false,
    pub_results := fun _ => none, pub_node_fails := false,
    client_initialized := true }

/-- A run environment in which the collect node's outer `except` handler
fires (the node calls `state.fail_workflow` itself). -/
def scrape_failing_env : Env :=
  { now := 0, min_score := 200, scraped := [], scrape_fails := true,
    score_fails := false, gen_results := fun _ => none, gen_node_fails := false,
    pub_results := fun _ => none, pub_node_fails := false,
    client_initialized := true }

/-- **C3** (amended): on every run in which no node's outer exception handler
fires, `completed_at` is assigned exactly once, at the terminal transition.
(As stated, for *every* run, the claim is false: when a node fails
internally, the node's `fail_workflow` and the terminal re-`fail_workflow` in
`run_workflow` each assign `completed_at` — see the counterexample.) -/
theorem C3_completed_at_write_once_without_node_failure (env : Env) (workflow_id : String)
    (h1 : env.scrape_fails = false) (h2 : env.score_fails = false)
    (h3 : env.gen_node_fails = false) (h4 : env.pub_node_fails = false) :
    (run_workflow env workflow_id).completed_at_writes = 1 ∧
    (run_workflow env workflow_id).completed_at = some env.now := by
  unfold run_workflow
  dsimp only
  obtain ⟨e, w⟩ := run_pipeline_preserves env
    { TrendState.start_workflow {} workflow_id env.now with min_score := env.min_score }
    h1 h2 h3 h4
  rw [finish_workflow_of_none _ _ (by rw [e]; rfl)]
  constructor
  · simp only [TrendState.complete_workflow, w]
    rfl
  · simp [TrendState.complete_workflow]

/-- Witness for C3 on the clean empty run. -/
theorem C3_completed_at_write_once_witness :
    clean_empty_env.scrape_fails = false ∧ clean_empty_env.score_fails = false ∧
    clean_empty_env.gen_node_fails = false ∧ clean_empty_env.pub_node_fails = false ∧
    ((run_workflow clean_empty_env "wf-c3").completed_at_writes = 1 ∧
     (run_workflow clean_empty_env "wf-c3").completed_at = some clean_empty_env.now) :=
  ⟨rfl, rfl, rfl, rfl,
    C3_completed_at_write_once_without_node_failure clean_empty_env "wf-c3" rfl rfl rfl rfl⟩

/-- Counterexample for C3 as stated: in a run whose collect node fails
internally, `completed_at` is assigned twice — once by the node's
`fail_workflow` and once more by `run_workflow`'s terminal `fail_workflow` on
the already-failed state. -/
theorem C3_counterexample_double_write :
    (run_workflow scrape_failing_env "wf").completed_at_writes = 2 ∧
    (run_workflow scrape_failing_env "wf").completed_at_writes ≠ 1 := by
  have h : (run_workflow scrape_failing_env "wf").completed_at_writes = 2 := rfl
  exact ⟨h, by rw [h]; norm_num⟩

/-- **C4**: a run whose Collect stage produces zero items (and whose collect
node does not throw) ends `Completed`, not `Failed`, with zero scored,
generated and published items, and the generation and publishing
collaborators receive zero invocations. -/
theorem C4_empty_collect_completes (env : Env) (workflow_id : String)
    (hs : env.scraped = []) (hf : env.scrape_fails = false) :
    (run_workflow env workflow_id).current_step = "completed" ∧
    (run_workflow env workflow_id).error_message = none ∧
    (run_workflow env workflow_id).scored_posts = [] ∧
    (run_workflow env workflow_id).generated_posts = [] ∧
    (run_workflow env workflow_id).results = [] ∧
    (run_workflow env workflow_id).total_scored = 0 ∧
    (run_workflow env workflow_id).total_generated = 0 ∧
    (run_workflow env workflow_id).total_posted = 0 ∧
    (run_workflow env workflow_id).gen_invocations = 0 ∧
    (run_workflow env workflow_id).pub_invocations = 0 := by
  simp [run_workflow, run_pipeline, scrape_sources_node, hf, hs,
    should_continue_to_scoring, WorkflowEnd, finish_workflow,
    TrendState.start_workflow, TrendState.update_step, TrendState.add_raw_posts,
    TrendState.complete_workflow]

/-- Witness for C4 on the clean empty run. -/
theorem C4_empty_collect_completes_witness :
    clean_empty_env.scraped = [] ∧ clean_empty_env.scrape_fails = false ∧
    ((run_workflow clean_empty_env "wf-c4").current_step = "completed" ∧
     (run_workflow clean_empty_env "wf-c4").error_message = none ∧
     (run_workflow clean_empty_env "wf-c4").scored_posts = [] ∧
     (run_workflow clean_empty_env "wf-c4").generated_posts = [] ∧
     (run_workflow clean_empty_env "wf-c4").results = [] ∧
     (run_workflow clean_empty_env "wf-c4").total_scored = 0 ∧
     (run_workflow clean_empty_env "wf-c4").total_generated = 0 ∧
     (run_workflow clean_empty_env "wf-c4").total_posted = 0 ∧
     (run_workflow clean_empty_env "wf-c4").gen_invocations = 0 ∧
     (run_workflow clean_empty_env "wf-c4").pub_invocations = 0) :=
  ⟨rfl, rfl, C4_empty_collect_completes clean_empty_env "wf-c4" rfl rfl⟩

/-! ## C5: per-item publish failure isolation -/

lemma post_tweet_status_posted (env : Env) (gp : GeneratedPost) (t : String)
    (hcl : env.client_initialized = true) (hl : gp.tweet_text.length ≤ 280)
    (hp : env.pub_results gp = some t) :
    (TwitterPoster.post_tweet env gp).status = PostStatus.posted := by
  simp [TwitterPoster.post_tweet, hcl, Nat.not_lt.mpr hl, hp, PostResult.mark_posted]

lemma post_tweet_status_failed (env : Env) (gp : GeneratedPost)
    (hcl : env.client_initialized = true) (hl : gp.tweet_text.length ≤ 280)
    (hp : env.pub_results gp = none) :
    (TwitterPoster.post_tweet env gp).status = PostStatus.failed := by
  simp [TwitterPoster.post_tweet, hcl, Nat.not_lt.mpr hl, hp, PostResult.mark_failed]

/-- **C5**: with three generated posts where only the second publish call
fails, the publish loop still attempts all three in order, the result
statuses are Published / Failed / Published, the node records no run-level
error, and the terminal handling still marks the run `Completed`. -/
theorem C5_publish_partial_failure (env : Env) (s : TrendState)
    (g1 g2 g3 : GeneratedPost) (t1 t3 : String)
    (hcl : env.client_initialized = true) (hnf : env.pub_node_fails = false)
    (hgp : s.generated_posts = [g1, g2, g3]) (herr : s.error_message = none)
    (hres : s.results = [])
    (hl1 : g1.tweet_text.length ≤ 280) (hl2 : g2.tweet_text.length ≤ 280)
    (hl3 : g3.tweet_text.length ≤ 280)
    (hp1 : env.pub_results g1 = some t1) (hp2 : env.pub_results g2 = none)
    (hp3 : env.pub_results g3 = some t3) :
    ((post_content_node env s).results.map (fun r => r.status)) =
      [PostStatus.posted, PostStatus.failed, PostStatus.posted] ∧
    (post_content_node env s).error_message = none ∧
    (finish_workflow (post_content_node env s) env.now).current_step = "completed" := by
  have hb : (post_content_node env s).results.map (fun r => r.status) =
      [PostStatus.posted, PostStatus.failed, PostStatus.posted] := by
    simp [post_content_node, hnf, hgp, TwitterPoster.post_tweets_batch,
      TrendState.update_step, TrendState.add_results, hres,
      post_tweet_status_posted env g1 t1 hcl hl1 hp1,
      post_tweet_status_failed env g2 hcl hl2 hp2,
      post_tweet_status_posted env g3 t3 hcl hl3 hp3]
  have he : (post_content_node env s).error_message = none := by
    simp [post_content_node, hnf, hgp, TrendState.update_step,
      TrendState.add_results, herr]
  refine ⟨hb, he, ?_⟩
  rw [finish_workflow_of_none _ _ he]
  simp [TrendState.complete_workflow]

/-- The generated posts of the C5 scenario. -/
def c5_raw : RawPost :=
  { reddit_id := "c5", title := "t", url := "u", upvotes := 500, created_utc := 0,
    subreddit := "pics", permalink := "p", num_comments := 10, upvote_ratio := 9/10 }

/-- See `c5_raw`. -/
def c5_scored : ScoredPost :=
  { raw_post := c5_raw, score := 250, meets_threshold := true }

/-- First generated post of the C5 scenario. -/
def c5_g1 : GeneratedPost := { scored_post := c5_scored, tweet_text := "one" }

/-- Second generated post of the C5 scenario (its publish call fails). -/
def c5_g2 : GeneratedPost := { scored_post := c5_scored, tweet_text := "two" }

/-- Third generated post of the C5 scenario. -/
def c5_g3 : GeneratedPost := { scored_post := c5_scored, tweet_text := "three" }

/-- Environment of the C5 scenario: publishing fails exactly on the second
post's text. -/
def c5_env : Env :=
  { now := 9, min_score := 200, scraped := [], scrape_fails := false,
    score_fails := false, gen_results := fun _ => none, gen_node_fails := false,
    pub_results := fun g => if g.tweet_text = "two" then none else some "801",
    pub_node_fails := false, client_initialized := true }

/-- State entering the publish stage in the C5 scenario. -/
def c5_state : TrendState := { generated_posts := [c5_g1, c5_g2, c5_g3] }

/-- Witness for C5 on the concrete three-post scenario. -/
theorem C5_publish_partial_failure_witness :
    c5_env.client_initialized = true ∧ c5_env.pub_node_fails = false ∧
    c5_state.generated_posts = [c5_g1, c5_g2, c5_g3] ∧
    c5_state.error_message = none ∧ c5_state.results = [] ∧
    c5_g1.tweet_text.length ≤ 280 ∧ c5_g2.tweet_text.length ≤ 280 ∧
    c5_g3.tweet_text.length ≤ 280 ∧
    c5_env.pub_results c5_g1 = some "801" ∧ c5_env.pub_results c5_g2 = none ∧
    c5_env.pub_results c5_g3 = some "801" ∧
    (((post_content_node c5_env c5_state).results.map (fun r => r.status)) =
        [PostStatus.posted, PostStatus.failed, PostStatus.posted] ∧
      (post_content_node c5_env c5_state).error_message = none ∧
      (finish_workflow (post_content_node c5_env c5_state) c5_env.now).current_step =
        "completed") :=
  ⟨rfl, rfl, rfl, rfl, rfl, by decide, by decide, by decide, rfl, rfl, rfl,
    C5_publish_partial_failure c5_env c5_state c5_g1 c5_g2 c5_g3 "801" "801"
      rfl rfl rfl rfl rfl (by decide) (by decide) (by decide) rfl rfl rfl⟩

/-! ## C6: per-item generation failure isolation -/

lemma truncated_ne_empty (t : String) (h : t ≠ "") :
    (if 280 < t.length then t.take 277 ++ "..." else t) ≠ "" := by
  split_ifs with hlen
  · intro hcontra
    have hlen0 := congrArg String.length hcontra
    rw [String.length_append] at hlen0
    have h3 : ("..." : String).length = 3 := rfl
    have h0 : ("" : String).length = 0 := rfl
    rw [h3, h0] at hlen0
    omega
  · exact h

/-- **C6**: generation failures are isolated per item — whenever item `A`'s
generation call fails and item `B`'s succeeds (with a non-empty reply), the
stage's output contains a generated post for `B` and no generated post for
`A`; `A`'s failure never drops `B` or aborts the stage. -/
theorem C6_generate_failure_isolation (env : Env) (posts : List ScoredPost)
    (A B : ScoredPost) (tB : String)
    (_hA : A ∈ posts) (hB : B ∈ posts)
    (hgA : env.gen_results A = none) (hgB : env.gen_results B = some tB)
    (hne : tB ≠ "") :
    (∃ g ∈ ContentGenerator.generate_tweets_batch env posts, g.scored_post = B) ∧
    (∀ g ∈ ContentGenerator.generate_tweets_batch env posts, g.scored_post ≠ A) := by
  constructor
  · refine ⟨GeneratedPost.mk B (if 280 < tB.length then tB.take 277 ++ "..." else tB),
      ?_, rfl⟩
    apply List.mem_filterMap.mpr
    refine ⟨B, hB, ?_⟩
    simp [ContentGenerator.generate_tweets_batch, ContentGenerator.generate_tweet, hgB,
      truncated_ne_empty tB hne]
  · intro g hg hcontra
    obtain ⟨a, ha, hfa⟩ := List.mem_filterMap.mp hg
    simp only [ContentGenerator.generate_tweet] at hfa
    cases hga : env.gen_results a with
    | none => rw [hga] at hfa; simp at hfa
    | some t =>
        rw [hga] at hfa
        dsimp only at hfa
        by_cases hemp : (if 280 < t.length then t.take 277 ++ "..." else t) = ""
        · rw [if_pos hemp] at hfa
          exact Option.noConfusion hfa
        · rw [if_neg hemp] at hfa
          have hsp : a = g.scored_post :=
            congrArg GeneratedPost.scored_post (Option.some.inj hfa)
        
          rw [hcontra] at hsp
          rw [hsp, hgA] at hga
          exact Option.noConfusion hga

/-- Scored post `A` of the C6 scenario (its generation call fails). -/
def c6_A : ScoredPost :=
  { raw_post :=
      { reddit_id := "ca", title := "ta", url := "ua", upvotes := 900, created_utc := 0,
        subreddit := "technology", permalink := "pa", num_comments := 40,
        upvote_ratio := 9/10 },
    score := 300, meets_threshold := true }

/-- Scored post `B` of the C6 scenario (its generation call succeeds). -/
def c6_B : ScoredPost :=
  { raw_post :=
      { reddit_id := "cb", title := "tb", url := "ub", upvotes := 800, created_utc := 0,
        subreddit := "technology", permalink := "pb", num_comments := 30,
        upvote_ratio := 9/10 },
    score := 280, meets_threshold := true }

/-- Environment of the C6 scenario: generation succeeds only for `B`. -/
def c6_env : Env :=
  { now := 9, min_score := 200, scraped := [], scrape_fails := false,
    score_fails := false,
    gen_results := fun p => if p.raw_post.reddit_id = "cb" then some "tweet b" else none,
    gen_node_fails := false, pub_results := fun _ => none, pub_node_fails := false,
    client_initialized := true }

/-- Witness for C6 on the concrete two-post batch. -/
theorem C6_generate_failure_isolation_witness :
    c6_A ∈ [c6_A, c6_B] ∧ c6_B ∈ [c6_A, c6_B] ∧
    c6_env.gen_results c6_A = none ∧ c6_env.gen_results c6_B = some "tweet b" ∧
    "tweet b" ≠ "" ∧
    ((∃ g ∈ ContentGenerator.generate_tweets_batch c6_env [c6_A, c6_B],
        g.scored_post = c6_B) ∧
      (∀ g ∈ ContentGenerator.generate_tweets_batch c6_env [c6_A, c6_B],
        g.scored_post ≠ c6_A)) :=
  ⟨List.mem_cons_self _ _, List.mem_cons_of_mem _ (List.mem_cons_self _ _),
    rfl, rfl, by decide,
    C6_generate_failure_isolation c6_env [c6_A, c6_B] c6_A c6_B "tweet b"
      (List.mem_cons_self _ _) (List.mem_cons_of_mem _ (List.mem_cons_self _ _))
      rfl rfl (by decide)⟩

/-! ## C1: scheduler single-instance guarantee -/

lemma sched_step_le_one (jobs : List JobDescriptor)
    (hjobs : ∀ j ∈ jobs, j.max_instances ≤ 1)
    (st : String → ℕ) (hst : ∀ jid, st jid ≤ 1) (e : SchedEvent) :
    ∀ jid, sched_step jobs st e jid ≤ 1 := by
  intro jid
  cases e with
  | fire fired =>
      simp only [sched_step]
      cases hfind : jobs.find? (fun j => j.id = fired) with
      | none => exact hst jid
      | some j =>
          have hmax : j.max_instances ≤ 1 :=
            hjobs j (List.mem_of_find?_eq_some hfind)
          dsimp only
          split_ifs with hlt
          · by_cases hid : jid = fired
            · subst hid
              simp
              omega
            · simp only [if_neg hid]
              exact hst jid
          · exact hst jid
  | finish finished =>
      simp only [sched_step]
      split_ifs with hid
      · exact le_trans (Nat.sub_le _ _) (hst jid)
      · exact hst jid

lemma sched_run_le_one_aux (jobs : List JobDescriptor)
    (hjobs : ∀ j ∈ jobs, j.max_instances ≤ 1) :
    ∀ (events : List SchedEvent) (st : String → ℕ),
      (∀ jid, st jid ≤ 1) → ∀ jid, (events.foldl (sched_step jobs) st) jid ≤ 1 := by
  intro events
  induction events with
  | nil => intro st hst jid; exact hst jid
  | cons e evs ih =>
      intro st hst jid
      rw [List.foldl_cons]
      exact ih _ (sched_step_le_one jobs hjobs st hst e) jid

/-- **C1**: for every job registered by `_add_jobs` (all with
`max_instances=1` and `coalesce=True`), after any sequence of trigger firings
(scheduled ticks, coalesced late firings, or manual run-now requests, which
`run_job_now` turns into an ordinary firing via `job.modify`) and completions,
at most one instance of that job id is ever in flight; and a firing that
arrives while an instance is in flight leaves the in-flight count at one — it
never starts a second concurrent instance. -/
theorem C1_scheduler_single_instance (events : List SchedEvent) (j : JobDescriptor)
    (_hj : j ∈ scheduled_jobs) :
    sched_run scheduled_jobs events j.id ≤ 1 ∧
    (sched_run scheduled_jobs events j.id = 1 →
      sched_step scheduled_jobs (sched_run scheduled_jobs events)
        (SchedEvent.fire j.id) j.id = 1) := by
  have hmax : ∀ k ∈ scheduled_jobs, k.max_instances ≤ 1 := by decide
  constructor
  · exact sched_run_le_one_aux scheduled_jobs hmax events (fun _ => 0)
      (fun _ => Nat.zero_le 1) j.id
  · intro h1
    simp only [sched_step]
    cases hfind : scheduled_jobs.find? (fun k => k.id = j.id) with
    | none => exact h1
    | some k =>
        have hk : k.max_instances ≤ 1 := hmax k (List.mem_of_find?_eq_some hfind)
        dsimp only
        rw [if_neg (by omega)]
        exact h1

/-- A trace with a second firing of the workflow job arriving before the
first instance finishes. -/
def c1_events : List SchedEvent :=
  [SchedEvent.fire "workflow_job", SchedEvent.fire "workflow_job"]

/-- Witness for C1 on the double-fire trace of the workflow job. -/
theorem C1_scheduler_single_instance_witness :
    workflow_job ∈ scheduled_jobs ∧
    (sched_run scheduled_jobs c1_events workflow_job.id ≤ 1 ∧
     (sched_run scheduled_jobs c1_events workflow_job.id = 1 →
       sched_step scheduled_jobs (sched_run scheduled_jobs c1_events)
         (SchedEvent.fire workflow_job.id) workflow_job.id = 1)) :=
  ⟨List.mem_cons_self _ _,
    C1_scheduler_single_instance c1_events workflow_job (List.mem_cons_self _ _)⟩
